import Mathlib

/-!
Verification of the MemoryBox client (src/frontend/src/App.jsx) against its
specification. The client keeps a locally displayed list of notes in sync with
a polled server, decrements displayed TTLs once per second, and routes
create/delete commands. Below, each piece of client logic is embedded as a
Lean function translated from the JavaScript source, and the spec's testable
properties are proved (or refuted) about those functions.
-/

namespace MemoryBox

/-- A JavaScript value sitting in a note's `ttl` / `orig_ttl` field: either a
number (modelled as an integer, since the server reports integer seconds) or
some non-numeric value (string, null, undefined, ...), which the code guards
against with `typeof n.ttl !== 'number'`. -/
inductive JsNum where
  | num (n : ℤ)
  | notNum
deriving DecidableEq

/-- A note as held in the client cache (`notes` state): `{id, text, tag, ttl,
orig_ttl}`. A missing tag is modelled as the empty string, matching the code's
`String(n.tag || '')` coercion. -/
structure Note where
  id : ℕ
  text : String
  tag : String
  ttl : JsNum
  orig_ttl : JsNum
deriving DecidableEq

/-- Model of JavaScript `String.prototype.trim`: drop leading and trailing
whitespace. (Defined over the character list so that it reduces in the
kernel.) -/
def jsTrim (s : String) : String :=
  String.mk (((s.data.dropWhile Char.isWhitespace).reverse.dropWhile Char.isWhitespace).reverse)

/-- Model of JavaScript `String.prototype.toLowerCase` (ASCII case folding). -/
def jsToLower (s : String) : String :=
  String.mk (s.data.map Char.toLower)

/-- `startsWithChars needle hay` is true when `needle` is an initial segment
of `hay`. Helper for the substring test. -/
def startsWithChars : List Char → List Char → Bool
  | [], _ => true
  | _ :: _, [] => false
  | a :: as, b :: bs => a == b && startsWithChars as bs

/-- `hasSubChars needle hay` is true when `needle` occurs contiguously inside
`hay`. Helper for the substring test. -/
def hasSubChars (needle : List Char) : List Char → Bool
  | [] => startsWithChars needle []
  | b :: bs => startsWithChars needle (b :: bs) || hasSubChars needle bs

/-- Model of JavaScript `hay.includes(needle)`. -/
def jsIncludes (hay needle : String) : Bool :=
  hasSubChars needle.data hay.data

/-! ### fmtTTL -/

/-- Embedding of `fmtTTL` from App.jsx:
```
if (secs === -2) return 'gone'
if (secs === -1) return '∞'
if (typeof secs !== 'number') return ''
if (secs < 60) return `${secs}s`
if (secs < 3600) return `${Math.floor(secs / 60)}m`
return `${Math.floor(secs / 3600)}h`
```
`Math.floor` of a division of integers is floor division (`Int.fdiv`). -/
def fmtTTL (secs : JsNum) : String :=
  if secs = JsNum.num (-2) then "gone"
  else if secs = JsNum.num (-1) then "∞"
  else
    match secs with
    | JsNum.notNum => ""
    | JsNum.num s =>
      if s < 60 then toString s ++ "s"
      else if s < 3600 then toString (Int.fdiv s 60) ++ "m"
      else toString (Int.fdiv s 3600) ++ "h"

/-! ### Ticker -/

/-- Per-note body of the 1-second ticker's `setNotes` updater:
```
if (typeof n.ttl !== 'number') return n
if (n.ttl > 0) return { ...n, ttl: n.ttl - 1 }
return n
``` -/
def tickNote (n : Note) : Note :=
  match n.ttl with
  | JsNum.notNum => n
  | JsNum.num t => if t > 0 then { n with ttl := JsNum.num (t - 1) } else n

/-- The whole ticker updater. `none` models a null/undefined previous state:
```
if (!prev || prev.length === 0) return prev
return prev.map((n) => ...)
``` -/
def tickAll (prev : Option (List Note)) : Option (List Note) :=
  match prev with
  | none => none
  | some l => if l.length = 0 then some l else some (l.map tickNote)

/-! ### Poller / fetchNotes -/

/-- A raw field value as delivered by the server before normalization:
a number, a string, or absent (null/undefined/missing). -/
inductive RawVal where
  | num (n : ℤ)
  | str (s : String)
  | absent
deriving DecidableEq

/-- A raw note record from `GET /notes` before TTL normalization. -/
structure RawNote where
  id : ℕ
  text : String
  tag : String
  ttl : RawVal
  orig_ttl : RawVal
deriving DecidableEq

/-- Model of JavaScript `parseInt(s, 10)`: skip leading whitespace, read an
optional sign and then leading decimal digits; `none` models `NaN`. -/
def jsParseInt (s : String) : Option ℤ :=
  let cs := s.data.dropWhile Char.isWhitespace
  let signAndRest : ℤ × List Char :=
    match cs with
    | '-' :: r => (-1, r)
    | '+' :: r => (1, r)
    | r => (1, r)
  let ds := signAndRest.2.takeWhile Char.isDigit
  if ds.isEmpty then none
  else some (signAndRest.1 * (ds.foldl (fun a c => a * 10 + (c.toNat - Char.toNat (Char.ofNat 48))) 0 : ℕ))

/-- Normalization applied to each raw TTL field in `fetchNotes`:
`typeof v === 'number' ? v : parseInt(v || 0, 10) || 0`. A falsy value
(absent or the empty string) first becomes `0`; a `NaN` parse result is
coerced to `0` by the trailing `|| 0`. -/
def normVal (v : RawVal) : ℤ :=
  match v with
  | RawVal.num n => n
  | RawVal.absent => 0
  | RawVal.str s => if s = "" then 0 else (jsParseInt s).getD 0

/-- Normalize one raw note to a cache note (the `normalized` map in
`fetchNotes`). -/
def normalizeNote (r : RawNote) : Note :=
  { id := r.id, text := r.text, tag := r.tag,
    ttl := JsNum.num (normVal r.ttl), orig_ttl := JsNum.num (normVal r.orig_ttl) }

/-- Outcome of one `GET /notes` poll attempt: a thrown network error, a
non-success HTTP response, or a successful response carrying data. -/
inductive PollResult where
  | netError
  | httpError
  | ok (data : List RawNote)
deriving DecidableEq

/-- A toast notification shown to the user. -/
inductive Toast where
  | error (msg : String)
  | success (msg : String)
  | info (msg : String)
deriving DecidableEq

/-- Embedding of `fetchNotes`: on a non-ok response it returns early; on a
thrown error it only logs to the console; in both cases the previous cache is
kept and no toast is shown. On success it replaces the cache with the
normalized data. Result: (new cache, toasts shown). -/
def fetchNotes (prev : List Note) (res : PollResult) : List Note × List Toast :=
  match res with
  | PollResult.netError => (prev, [])
  | PollResult.httpError => (prev, [])
  | PollResult.ok data => (data.map normalizeNote, [])

/-! ### CommandDispatcher: submit (create) -/

/-- The editor portion of the component state read and written by `submit`. -/
structure EditorState where
  text : String
  ttlMinutes : ℚ
  selectedTag : String
  loading : Bool
deriving DecidableEq

/-- The JSON body of `POST /notes`: `{ text: text.trim(), ttl: ttlSeconds,
tag: selectedTag }`. -/
structure CreatePayload where
  text : String
  ttl : ℤ
  tag : String
deriving DecidableEq

/-- Outcome of a single request: success, non-success status, or a thrown
network error. -/
inductive ReqOutcome where
  | ok
  | httpError
  | netError
deriving DecidableEq

/-- The TTL conversion in `submit`:
`Math.max(1, Math.floor(Number(ttlMinutes) * 60))`. -/
def submitTtlSeconds (m : ℚ) : ℤ :=
  max 1 ⌊m * 60⌋

/-- The spec's words for the same conversion, for comparison: "converts
`ttlMinutes` to whole seconds (`ceil`, minimum 1 second)". -/
def specCeilTtlSeconds (m : ℚ) : ℤ :=
  max 1 ⌈m * 60⌉

/-- Everything `submit` does, besides the new editor state: toasts shown, the
create request issued (if any), and whether an out-of-cycle resync
(`fetchNotesRef.current()`) was triggered. -/
structure SubmitResult where
  editor : EditorState
  toasts : List Toast
  request : Option CreatePayload
  resync : Bool
deriving DecidableEq

/-- Embedding of `submit`. Validation: `if (!text.trim()) { toast.error(...);
return }` — rejected before any network call, state untouched. Otherwise the
payload is sent; on `res.ok` the editor is cleared to its defaults and a
resync is triggered; on a non-ok status or a thrown error only an error toast
is shown (the `finally` clears `loading` in every request path). -/
def submit (st : EditorState) (out : ReqOutcome) : SubmitResult :=
  if jsTrim st.text = "" then
    { editor := st, toasts := [Toast.error "Type something first 😉"],
      request := none, resync := false }
  else
    let payload : CreatePayload :=
      { text := jsTrim st.text, ttl := submitTtlSeconds st.ttlMinutes, tag := st.selectedTag }
    match out with
    | ReqOutcome.ok =>
      { editor := { st with text := "", selectedTag := "", ttlMinutes := 1, loading := false },
        toasts := [Toast.success "Saved — note will expire"],
        request := some payload, resync := true }
    | ReqOutcome.httpError =>
      { editor := { st with loading := false },
        toasts := [Toast.error "Save failed"],
        request := some payload, resync := false }
    | ReqOutcome.netError =>
      { editor := { st with loading := false },
        toasts := [Toast.error "Save failed"],
        request := some payload, resync := false }

/-! ### CommandDispatcher: remove (delete) -/

/-- What one call to `remove(id)` produces: the request path, the toasts
shown, and whether `fetchNotesRef.current()` ran afterwards (it sits in the
`finally` block, so it runs on every outcome). -/
structure RemoveResult where
  path : String
  toasts : List Toast
  resync : Bool
deriving DecidableEq

/-- Embedding of `remove`: `DELETE /notes/{id}`; `res.ok` shows an info toast,
otherwise an error toast; the `finally` block always triggers a resync. -/
def remove (id : ℕ) (out : ReqOutcome) : RemoveResult :=
  { path := "/notes/" ++ toString id,
    toasts :=
      match out with
      | ReqOutcome.ok => [Toast.info "Deleted"]
      | ReqOutcome.httpError => [Toast.error "Delete failed"]
      | ReqOutcome.netError => [Toast.error "Delete failed"],
    resync := true }

/-! ### PreferenceStore (localStorage 'memorybox:dark') -/

/-- The stored value under the durable key, `none` when the key is absent.
`load` is the initial-load check `localStorage.getItem('memorybox:dark') ===
'1'`. -/
def prefLoad (stored : Option String) : Bool :=
  stored == some "1"

/-- The dark-mode persistence effect: `dark ? setItem('memorybox:dark', '1')
: removeItem('memorybox:dark')`. Takes the previous stored value (which it
overwrites unconditionally) and returns the new one. -/
def prefSet (value : Bool) (_stored : Option String) : Option String :=
  if value then some "1" else none

/-! ### FilterIndex -/

/-- Embedding of the `filtered` predicate body:
```
if (q.trim()) {
  const s = q.toLowerCase()
  if (!(String(n.text).toLowerCase().includes(s) ||
        String(n.tag || '').toLowerCase().includes(s))) return false
}
if (showOnlyTag && showOnlyTag !== '') return n.tag === showOnlyTag
return true
``` -/
def noteMatches (q showOnlyTag : String) (n : Note) : Bool :=
  if jsTrim q ≠ "" then
    let s := jsToLower q
    if !(jsIncludes (jsToLower n.text) s || jsIncludes (jsToLower n.tag) s) then false
    else if showOnlyTag ≠ "" then n.tag == showOnlyTag
    else true
  else if showOnlyTag ≠ "" then n.tag == showOnlyTag
  else true

/-- `filtered = notes.filter(...)`. -/
def filtered (notes : List Note) (q showOnlyTag : String) : List Note :=
  notes.filter (noteMatches q showOnlyTag)

/-! ## Theorems -/

/-- C1: for every note in the local cache whose ttl is a number greater than
0, one Ticker tick decreases that ttl by exactly 1; a note at 0 or at a
sentinel (-1, -2) is unchanged; and a tick never turns a non-negative or
sentinel ttl into a negative non-sentinel value. The tick acts elementwise:
`tickAll` on a cache is exactly the per-note map of `tickNote`. -/
theorem tickAll_decrements_positive_ttl (l : List Note) (n : Note) (t : ℤ)
    (hmem : n ∈ l) (ht : n.ttl = JsNum.num t) :
    tickAll (some l) = some (l.map tickNote) ∧
    (0 < t → tickNote n = { n with ttl := JsNum.num (t - 1) }) ∧
    ((t = 0 ∨ t = -1 ∨ t = -2) → tickNote n = n) ∧
    (∀ t', (tickNote n).ttl = JsNum.num t' →
      (0 ≤ t ∨ t = -1 ∨ t = -2) → (0 ≤ t' ∨ t' = -1 ∨ t' = -2)) := by
  refine ⟨?_, ?_, ?_, ?_⟩
  · cases l with
    | nil => rfl
    | cons a as => simp [tickAll]
  · intro hpos
    simp [tickNote, ht, hpos]
  · rintro (rfl | rfl | rfl) <;> simp [tickNote, ht]
  · intro t' ht' hcase
    by_cases hpos : 0 < t
    · have hstep : tickNote n = { n with ttl := JsNum.num (t - 1) } := by
        simp [tickNote, ht, hpos]
      rw [hstep] at ht'
      simp only [JsNum.num.injEq] at ht'
      omega
    · have hstep : tickNote n = n := by
        simp [tickNote, ht, hpos]
      rw [hstep, ht] at ht'
      simp only [JsNum.num.injEq] at ht'
      omega

theorem tickAll_decrements_positive_ttl_witness :
    tickNote { id := 1, text := "a", tag := "", ttl := JsNum.num 5, orig_ttl := JsNum.num 9 }
      = { id := 1, text := "a", tag := "", ttl := JsNum.num 4, orig_ttl := JsNum.num 9 } := by
  have h := tickAll_decrements_positive_ttl
      [{ id := 1, text := "a", tag := "", ttl := JsNum.num 5, orig_ttl := JsNum.num 9 }]
      { id := 1, text := "a", tag := "", ttl := JsNum.num 5, orig_ttl := JsNum.num 9 } 5
      (List.mem_singleton.mpr rfl) rfl
  exact (h.2.1 (by decide)).trans (by decide)

/-- C2: a failed poll attempt (thrown network error or non-success HTTP
response) leaves the local note cache exactly as it was and shows no toast to
the user. -/
theorem fetchNotes_failure_noop (prev : List Note) (res : PollResult)
    (h : res = PollResult.netError ∨ res = PollResult.httpError) :
    fetchNotes prev res = (prev, []) := by
  rcases h with rfl | rfl
  · rfl
  · rfl

theorem fetchNotes_failure_noop_witness :
    fetchNotes [{ id := 1, text := "a", tag := "", ttl := JsNum.num 3, orig_ttl := JsNum.num 3 }]
        PollResult.netError
      = ([{ id := 1, text := "a", tag := "", ttl := JsNum.num 3, orig_ttl := JsNum.num 3 }], []) :=
  fetchNotes_failure_noop _ _ (Or.inl rfl)

/-- C3: when the submitted text is empty after trimming, `submit` issues no
network request (`request = none`), shows a validation-error toast
synchronously, leaves the editor state untouched, and triggers no resync —
so the note cache is not modified (the cache is only ever written by a
fetch, and none is started). -/
theorem submit_empty_text_rejected (st : EditorState) (out : ReqOutcome)
    (h : jsTrim st.text = "") :
    submit st out =
      { editor := st, toasts := [Toast.error "Type something first 😉"],
        request := none, resync := false } := by
  simp [submit, h]

theorem submit_empty_text_rejected_witness :
    submit { text := "   ", ttlMinutes := 1, selectedTag := "", loading := false } ReqOutcome.ok
      = { editor := { text := "   ", ttlMinutes := 1, selectedTag := "", loading := false },
          toasts := [Toast.error "Type something first 😉"],
          request := none, resync := false } :=
  submit_empty_text_rejected _ _ (by decide)

/-- C4: every invocation of `remove` triggers a resync afterwards, whatever
the outcome of the delete request — success, non-success status, or thrown
network error (the resync call sits in the `finally` block). -/
theorem remove_always_resyncs (id : ℕ) (out : ReqOutcome) :
    (remove id out).resync = true := rfl

/-- C5 counterexample: the conversion in `submit` is `Math.floor`, not the
ceiling the spec states. At `ttlMinutes = 129/128` (exactly representable,
so the model is faithful to the double arithmetic) the code sends
`floor(60.46875) = 60` seconds while the spec's ceiling formula yields 61. -/
theorem submit_ttl_ceil_counterexample :
    (submit { text := "hi", ttlMinutes := 129/128, selectedTag := "", loading := false }
        ReqOutcome.ok).request
      = some { text := "hi", ttl := 60, tag := "" } ∧
    specCeilTtlSeconds (129/128) = 61 := by
  have hne : ¬ (jsTrim "hi" = "") := by decide
  have h60 : submitTtlSeconds (129/128) = 60 := by
    unfold submitTtlSeconds
    rw [show ((129:ℚ)/128) * 60 = (1935:ℚ)/32 by norm_num]
    norm_num
  constructor
  · simp [submit, hne, h60]
    decide
  · unfold specCeilTtlSeconds
    rw [show ((129:ℚ)/128) * 60 = (1935:ℚ)/32 by norm_num]
    rw [show ⌈(1935:ℚ)/32⌉ = 61 by rw [Int.ceil_eq_iff]; norm_num]
    norm_num

/-- C5 amended: for every ttlMinutes value, the TTL sent to the server equals
`max 1 ⌊ttlMinutes * 60⌋` — a floor conversion with a minimum of 1 second,
not a ceiling. For whole-number ttlMinutes (the only values the UI slider
produces) floor and ceiling of `ttlMinutes * 60` coincide, so the sent value
then also equals the spec's ceiling formula. -/
theorem submit_ttl_floor (st : EditorState) (out : ReqOutcome)
    (h : jsTrim st.text ≠ "") :
    (submit st out).request =
      some { text := jsTrim st.text, ttl := max 1 ⌊st.ttlMinutes * 60⌋,
             tag := st.selectedTag } ∧
    (∀ k : ℤ, st.ttlMinutes = (k : ℚ) →
      submitTtlSeconds st.ttlMinutes = specCeilTtlSeconds st.ttlMinutes) := by
  constructor
  · cases out <;> simp [submit, h, submitTtlSeconds]
  · intro k hk
    unfold submitTtlSeconds specCeilTtlSeconds
    rw [hk, show ((k:ℚ) * 60) = ((k * 60 : ℤ) : ℚ) by push_cast; ring,
      Int.floor_intCast, Int.ceil_intCast]

theorem submit_ttl_floor_witness :
    (submit { text := "hi", ttlMinutes := 2, selectedTag := "", loading := false }
        ReqOutcome.ok).request
      = some { text := "hi", ttl := max 1 ⌊(2:ℚ) * 60⌋, tag := "" } := by
  have h := (submit_ttl_floor
      { text := "hi", ttlMinutes := 2, selectedTag := "", loading := false }
      ReqOutcome.ok (by decide)).1
  rw [show jsTrim "hi" = "hi" by decide] at h
  exact h

/-- C6 counterexample: the formatter renders the -1 sentinel as the infinity
sign, not as the literal string "no expiry" the spec's scenario lists. -/
theorem fmtTTL_no_expiry_counterexample :
    fmtTTL (JsNum.num (-1)) = "∞" ∧ fmtTTL (JsNum.num (-1)) ≠ "no expiry" := by
  constructor
  · rfl
  · decide

/-- C6 amended: `fmtTTL` maps 125 to "2m", 7300 to "2h", -2 to "gone", and
-1 to "∞" (the infinity sign standing for "no expiry", rather than those
words). -/
theorem fmtTTL_examples :
    fmtTTL (JsNum.num 125) = "2m" ∧ fmtTTL (JsNum.num 7300) = "2h" ∧
    fmtTTL (JsNum.num (-1)) = "∞" ∧ fmtTTL (JsNum.num (-2)) = "gone" := by
  refine ⟨by decide, by decide, by decide, by decide⟩

/-- C7: when a create request fails (non-success response or thrown network
error), the editor's text, selected tag and ttlMinutes are left exactly as
they were, only an error toast is shown, and no resync is triggered. -/
theorem submit_failure_preserves_editor (st : EditorState) (out : ReqOutcome)
    (hne : jsTrim st.text ≠ "")
    (hfail : out = ReqOutcome.httpError ∨ out = ReqOutcome.netError) :
    (submit st out).editor.text = st.text ∧
    (submit st out).editor.selectedTag = st.selectedTag ∧
    (submit st out).editor.ttlMinutes = st.ttlMinutes ∧
    (submit st out).toasts = [Toast.error "Save failed"] ∧
    (submit st out).resync = false := by
  rcases hfail with rfl | rfl <;> simp [submit, hne]

theorem submit_failure_preserves_editor_witness :
    (submit { text := "hi", ttlMinutes := 2, selectedTag := "idea", loading := false }
        ReqOutcome.httpError).editor.text = "hi" ∧
    (submit { text := "hi", ttlMinutes := 2, selectedTag := "idea", loading := false }
        ReqOutcome.httpError).editor.selectedTag = "idea" ∧
    (submit { text := "hi", ttlMinutes := 2, selectedTag := "idea", loading := false }
        ReqOutcome.httpError).editor.ttlMinutes = 2 ∧
    (submit { text := "hi", ttlMinutes := 2, selectedTag := "idea", loading := false }
        ReqOutcome.httpError).toasts = [Toast.error "Save failed"] ∧
    (submit { text := "hi", ttlMinutes := 2, selectedTag := "idea", loading := false }
        ReqOutcome.httpError).resync = false :=
  submit_failure_preserves_editor _ _ (by decide) (Or.inl rfl)

/-- C8: PreferenceStore round-trip. After `set true` a load yields true;
after `set false` a load yields false and the key is absent (removed, never
written as "0"); and a load yields true exactly when the stored value is
present and equal to "1" — any other value or absence yields false. -/
theorem preference_roundtrip (s : Option String) :
    prefLoad (prefSet true s) = true ∧
    prefLoad (prefSet false s) = false ∧
    prefSet false s = none ∧
    (prefLoad s = true ↔ s = some "1") := by
  refine ⟨rfl, rfl, rfl, ?_⟩
  simp [prefLoad]

/-- Helper: the early-return filter predicate equals the conjunction of the
query condition and the tag condition. -/
theorem noteMatches_eq_and (q tagF : String) (n : Note) :
    noteMatches q tagF n =
      ((if jsTrim q ≠ "" then
          jsIncludes (jsToLower n.text) (jsToLower q) ||
          jsIncludes (jsToLower n.tag) (jsToLower q)
        else true) &&
       (if tagF ≠ "" then n.tag == tagF else true)) := by
  by_cases hq : jsTrim q = "" <;> by_cases htf : tagF = "" <;>
    simp [noteMatches, hq, htf]

/-- C9: a note is in the filter result iff it is in the cache and (when the
trimmed query is non-empty) the lowercased query occurs in the note's
lowercased text or tag, and (when the tag filter is non-empty) the note's
tag equals the filter exactly; both conditions combine by conjunction. The
filter does not mutate the cache (it builds a new list) and its result is a
sublist of the cache, hence preserves cache order. -/
theorem filtered_spec (notes : List Note) (q tagF : String) (n : Note) :
    (n ∈ filtered notes q tagF ↔
      n ∈ notes ∧
      (jsTrim q ≠ "" →
        (jsIncludes (jsToLower n.text) (jsToLower q) = true ∨
         jsIncludes (jsToLower n.tag) (jsToLower q) = true)) ∧
      (tagF ≠ "" → n.tag = tagF)) ∧
    List.Sublist (filtered notes q tagF) notes := by
  refine ⟨?_, List.filter_sublist _⟩
  rw [filtered, List.mem_filter, noteMatches_eq_and]
  by_cases hq : jsTrim q = "" <;> by_cases htf : tagF = "" <;>
    simp [hq, htf, and_assoc]

/-- C10: a Ticker tick leaves every note whose ttl field is not a number
unchanged (the typeof guard prevents decrementing it into NaN), and a tick
on an absent (`none`) or empty collection returns the collection itself
unchanged. -/
theorem tick_non_numeric_safe (n : Note) (hn : n.ttl = JsNum.notNum) :
    tickNote n = n ∧ tickAll none = none ∧ tickAll (some []) = some [] := by
  refine ⟨?_, rfl, rfl⟩
  simp [tickNote, hn]

theorem tick_non_numeric_safe_witness :
    tickNote { id := 2, text := "b", tag := "", ttl := JsNum.notNum, orig_ttl := JsNum.num 0 }
      = { id := 2, text := "b", tag := "", ttl := JsNum.notNum, orig_ttl := JsNum.num 0 } ∧
    tickAll none = none ∧ tickAll (some []) = some [] :=
  tick_non_numeric_safe _ rfl

end MemoryBox
